import Mathlib

/-!
Shallow embedding of `src/app/keyword_nlp.py` (repository
DalDa-MapDa/MapDa_Keyword_Analysis): a batch sentiment-classification
pipeline consisting of a Classifier Client (`analyze_emotion`) and a
Batch Runner (`main`).

Modelling conventions:
* Python objects that can flow out of `json.loads` / `dict.get` are
  modelled by the inductive `PyVal`; Python `None` is `PyVal.none`.
* Exceptions of external collaborators (the Gemini network call,
  `json.loads`) are modelled with `Except`: the network outcome is a
  parameter of `analyze_emotion`, and `json.loads` is a parameter
  `jsonLoads : String → Except Unit PyVal` (the Python standard library
  is an external collaborator; only its raise/return outcome is
  observable to the code under verification).
* `pd.isna` nullability of a cell is modelled with `Option`.
* Strings written by `tqdm.write` (logging) are returned alongside the
  value; strings written by `print` are collected in `MainResult.console`.
-/

/-- A Python runtime value, as far as the code under verification can
observe one: `json.loads` results, `dict.get` results, and the values
stored in the `emotion_result` column.  `PyVal.none` models Python
`None`. -/
inductive PyVal where
  | none : PyVal
  | str : String → PyVal
  | int : Int → PyVal
  | bool : Bool → PyVal
  | list : List PyVal → PyVal
  | dict : List (String × PyVal) → PyVal

/-- The pydantic response model `EmotionResultModel(BaseModel): result: str`
(line 28-29 of the source). -/
structure EmotionResultModel where
  result : String

/-- The observable part of a `google.genai` generate-content response:
`response.parsed` (the schema-validated `EmotionResultModel`, or `None`)
and `response.text` (the raw text, or `None`; accessing `.strip()` on a
`None` text raises `AttributeError`). -/
structure GenResponse where
  parsed : Option EmotionResultModel
  text : Option String

/-- `SYSTEM_PROMPT` (lines 21-25 of the source). -/
def SYSTEM_PROMPT : String :=
  "다음 문장의 전체 맥락을 고려하여 감정 분석을 진행하세요. " ++
  "문장이 긍정적이면 Positive로, 부정적이면 Negative로, 중립이면 Neutral로 응답하세요. " ++
  "문장:"

/-- The prompt construction on line 43 of the source. -/
def promptFor (text : String) : String := SYSTEM_PROMPT ++ " " ++ text

/-- Python's `str.strip()` with no arguments: remove leading and
trailing whitespace. -/
def pyStrip (s : String) : String :=
  ⟨((s.data.dropWhile Char.isWhitespace).reverse.dropWhile
      Char.isWhitespace).reverse⟩

/-- The Python runtime message raised by `None.strip()` — used when
`response.text` is `None` and the outer `except` catches the
`AttributeError`. -/
def attributeErrorMsg : String := "'NoneType' object has no attribute 'strip'"

/-- The log line of line 74 of the source, written with `tqdm.write`. -/
def geminiErrorLog (e : String) : String := "Gemini API 호출 중 오류 발생: " ++ e

/-- First index (if any) at which `needle` occurs as a contiguous
sublist of `hay`; used to model Python's `in` substring operator and to
talk about positions of occurrences. -/
def findSubstr (needle : List Char) : List Char → Option Nat
  | [] => if needle = [] then some 0 else none
  | c :: rest =>
    if needle.isPrefixOf (c :: rest) then some 0
    else (findSubstr needle rest).map (· + 1)

/-- First index of `needle` in `hay` as strings. -/
def strFind (needle hay : String) : Option Nat :=
  findSubstr needle.toList hay.toList

/-- Python's substring test `needle in hay`. -/
def pyContains (needle hay : String) : Bool := (strFind needle hay).isSome

/-- Lines 63-71 of the source: the substring-matching tier of the
parsing fallback chain, applied to the (stripped) raw response text,
followed by the raw-text-verbatim tier. -/
def substringFallback (result_text : String) : PyVal :=
  if pyContains "Positive" result_text then .str "Positive"
  else if pyContains "Negative" result_text then .str "Negative"
  else if pyContains "Neutral" result_text then .str "Neutral"
  else .str result_text

/-- `dict.get(key, None)` on the association list of a `PyVal.dict`.
Dictionaries produced by `json.loads` have pairwise-distinct keys, so a
first-match lookup agrees with Python's `dict.get`. -/
def pyDictGet (kvs : List (String × PyVal)) (key : String) : PyVal :=
  (List.lookup key kvs).getD .none

/-- The Classifier Client `analyze_emotion` (lines 32-75 of the source).

`jsonLoads` models the standard library `json.loads` (raise = `.error`);
`callResult` models the outcome of the `client.models.generate_content`
network call (raise = `.error` carrying the exception message).  The
returned pair is the function's return value together with the list of
lines logged via `tqdm.write`.

Transcription of the fallback chain:
* `response.parsed` present → use `parsed.result` (line 53-55);
* else if `response.text` is `None`, `.strip()` raises `AttributeError`,
  caught by the outer `except` (line 73-75) → log and return `None`;
* else `json.loads` on the stripped text: a `dict` result goes through
  `.get("result", None)` (line 60-61); any non-dict result makes `.get`
  raise `AttributeError`, caught by the inner `except` (line 62) exactly
  like a `json.loads` failure → substring fallback (lines 63-71). -/
def analyze_emotion (jsonLoads : String → Except Unit PyVal)
    (callResult : Except String GenResponse) : PyVal × List String :=
  match callResult with
  | .error e => (.none, [geminiErrorLog e])
  | .ok response =>
    match response.parsed with
    | some result_obj => (.str result_obj.result, [])
    | none =>
      match response.text with
      | none => (.none, [geminiErrorLog attributeErrorMsg])
      | some t =>
        let result_text := pyStrip t
        match jsonLoads result_text with
        | .ok (.dict kvs) => (pyDictGet kvs "result", [])
        | .ok _ => (substringFallback result_text, [])
        | .error _ => (substringFallback result_text, [])

/-- `INPUT_EXCEL_PATH` (line 15; `os.path.join` with the POSIX separator). -/
def INPUT_EXCEL_PATH : String := "data/school.xlsx"

/-- `OUTPUT_DIR` (line 16). -/
def OUTPUT_DIR : String := "result"

/-- `OUTPUT_EXCEL_PATH` (line 17). -/
def OUTPUT_EXCEL_PATH : String := "result/emotion_analysis_result.xlsx"

/-- One row of the Source Table.  `no` is the identity key column
(called `id` in the specification); `pd.isna`-null cells are `Option`
`none`.  `body` is the text column (the input contract declares `body`
as nullable text); `title`, `vote` and `comment` are opaque payload. -/
structure Row where
  no : Option Int
  title : PyVal
  body : Option String
  vote : PyVal
  comment : PyVal

/-- One row of the Result Table: a source row plus the
`emotion_result` column. -/
structure ResultRow where
  no : Option Int
  title : PyVal
  body : Option String
  vote : PyVal
  comment : PyVal
  emotion_result : PyVal

/-- `required_columns` (line 140 of the source). -/
def required_columns : List String :=
  ["no", "title", "body", "vote", "comment", "emotion_result"]

/-- A dataframe as persisted/loaded: its column list and its rows. -/
structure Frame where
  cols : List String
  rows : List ResultRow

/-- The empty Result Table created on lines 101/104 of the source:
`pd.DataFrame(columns=["no", "title", "body", "vote", "comment",
"emotion_result"])`. -/
def emptyResultFrame : Frame := ⟨required_columns, []⟩

/-- Line 107 of the source:
`processed_nos = set(df_existing["no"].dropna().astype(int).tolist())` —
the non-null `no` values of the loaded Result Table. -/
def processed_nos (rows : List ResultRow) : List Int :=
  rows.filterMap (·.no)

/-- Lines 112-115 of the source: `row_no = int(row["no"]) if not
pd.isna(row["no"]) else None`, then `if row_no in processed_nos`.
A null `no` gives `row_no = None`, and `None` is never a member of the
set of integers, so the record is not skipped. -/
def shouldSkip (nos : List Int) (r : Row) : Bool :=
  match r.no with
  | some n => nos.contains n
  | none => false

/-- Lines 118-124 of the source: `body_text = row["body"] if not
pd.isna(row["body"]) else None`; `if not body_text` (Python falsiness:
`None` and the empty string) short-circuits to `None` without calling
the Classifier Client, otherwise `analyze_emotion(str(body_text))` is
invoked.  The first component is `emotion_result`; the second records
the text of the classifier invocation, if any (`oracle` abstracts the
outcome of `analyze_emotion` per body text). -/
def classifyBody (oracle : String → PyVal) (body_text : Option String) :
    PyVal × List String :=
  match body_text with
  | none => (.none, [])
  | some s => if s = "" then (.none, []) else (oracle s, [s])

/-- Lines 127-134 of the source: `new_row` passes the source cells
through unchanged (including the original, possibly null, `no`) and adds
`emotion_result`. -/
def mkResultRow (r : Row) (emotion_result : PyVal) : ResultRow :=
  ⟨r.no, r.title, r.body, r.vote, r.comment, emotion_result⟩

/-- The mutable state of one run of the batch loop: the in-memory
Result Table, the list of classifier invocations made so far (their body
texts), and the snapshots persisted by `to_excel` so far. -/
structure RunState where
  frame : Frame
  calls : List String
  writes : List Frame

/-- One iteration of the loop on lines 110-148 of the source: skip when
the record's `no` is already processed (line 115-116); otherwise compute
`emotion_result` (lines 118-124), append `new_row` (lines 127-137),
reorder the columns to `required_columns` (lines 139-141), and persist
the full table (lines 143-148; a persistence failure is logged and the
loop continues, so the snapshot list records the attempted write). -/
def processRecord (oracle : String → PyVal) (nos : List Int)
    (st : RunState) (r : Row) : RunState :=
  if shouldSkip nos r then st
  else
    let er := classifyBody oracle r.body
    let newFrame : Frame :=
      ⟨required_columns, st.frame.rows ++ [mkResultRow r er.1]⟩
    ⟨newFrame, st.calls ++ er.2, st.writes ++ [newFrame]⟩

/-- Lines 106-148 of the source: compute `processed_nos` once from the
loaded Result Table, then fold the loop body over the Source Table rows
in their original order. -/
def runMain (oracle : String → PyVal) (df_input : List Row)
    (df_existing : Frame) : RunState :=
  df_input.foldl (processRecord oracle (processed_nos df_existing.rows))
    ⟨df_existing, [], []⟩

/-- The diagnostic printed on line 85 when reading the input file raises. -/
def readErrConsole (e : String) : String :=
  "엑셀 파일(" ++ INPUT_EXCEL_PATH ++ ") 읽기 오류: " ++ e

/-- The diagnostic printed on line 90 when the `body` column is missing. -/
def missingBodyConsole : String := "엑셀 파일에 'body' 컬럼이 없습니다."

/-- The diagnostic printed on line 99 when reading the existing Result
Table raises. -/
def existingReadErrConsole (e : String) : String :=
  "기존 결과 파일(" ++ OUTPUT_EXCEL_PATH ++ ") 읽기 오류: " ++ e

/-- The success message printed on line 150. -/
def successConsole : String :=
  "최종 감정 분석 결과가 '" ++ OUTPUT_EXCEL_PATH ++ "'에 저장되었습니다."

/-- The observable outcome of `main`: `run = none` when the function
returned early (before the loop), `run = some st` when the batch loop
ran to completion with final state `st`; `console` is the list of lines
printed with `print`, in order. -/
structure MainResult where
  run : Option RunState
  console : List String

/-- `main` (lines 77-150 of the source).  `inputLoad` models the outcome
of `pd.read_excel(INPUT_EXCEL_PATH)` as the column list and rows (raise =
`.error` with the exception message); `existingLoad` models the Result
Table file: `none` when the file does not exist (line 94), `some` the
outcome of `pd.read_excel(OUTPUT_EXCEL_PATH)` otherwise.  An unreadable
input aborts with a diagnostic (lines 84-86); a missing `body` column
aborts with a diagnostic (lines 89-91); an unreadable existing Result
Table falls back to the empty frame with the canonical columns
(lines 98-101).  No exception propagates: the function is total. -/
def pymain (oracle : String → PyVal)
    (inputLoad : Except String (List String × List Row))
    (existingLoad : Option (Except String Frame)) : MainResult :=
  match inputLoad with
  | .error e => ⟨none, [readErrConsole e]⟩
  | .ok (cols, rows) =>
    if "body" ∈ cols then
      match existingLoad with
      | some (.ok df_existing) =>
        ⟨some (runMain oracle rows df_existing), [successConsole]⟩
      | some (.error e) =>
        ⟨some (runMain oracle rows emptyResultFrame),
          [existingReadErrConsole e, successConsole]⟩
      | none =>
        ⟨some (runMain oracle rows emptyResultFrame), [successConsole]⟩
    else ⟨none, [missingBodyConsole]⟩

/-- Characterisation of the records a run processes: those not skipped
by the resume check. -/
def keptRecords (nos : List Int) (input : List Row) : List Row :=
  input.filter (fun r => !shouldSkip nos r)

/-- Characterisation of the rows a run appends to the Result Table. -/
def newRows (oracle : String → PyVal) (nos : List Int)
    (input : List Row) : List ResultRow :=
  (keptRecords nos input).map (fun r => mkResultRow r (classifyBody oracle r.body).1)

/-- Characterisation of the classifier invocations a run performs (the
body texts sent to `analyze_emotion`, in order). -/
def newCalls (oracle : String → PyVal) (nos : List Int)
    (input : List Row) : List String :=
  ((keptRecords nos input).map (fun r => (classifyBody oracle r.body).2)).flatten

theorem foldl_processRecord_rows (oracle : String → PyVal) (nos : List Int)
    (input : List Row) :
    ∀ st : RunState,
      (input.foldl (processRecord oracle nos) st).frame.rows
        = st.frame.rows ++ newRows oracle nos input := by
  induction input with
  | nil => intro st; simp [newRows, keptRecords]
  | cons r rs ih =>
    intro st
    simp only [List.foldl_cons]
    rw [ih]
    by_cases h : shouldSkip nos r
    · simp [processRecord, h, newRows, keptRecords, List.filter_cons]
    · simp [processRecord, h, newRows, keptRecords, List.filter_cons]

theorem foldl_processRecord_calls (oracle : String → PyVal) (nos : List Int)
    (input : List Row) :
    ∀ st : RunState,
      (input.foldl (processRecord oracle nos) st).calls
        = st.calls ++ newCalls oracle nos input := by
  induction input with
  | nil => intro st; simp [newCalls, keptRecords]
  | cons r rs ih =>
    intro st
    simp only [List.foldl_cons]
    rw [ih]
    by_cases h : shouldSkip nos r
    · simp [processRecord, h, newCalls, keptRecords, List.filter_cons]
    · simp [processRecord, h, newCalls, keptRecords, List.filter_cons]

theorem foldl_processRecord_writes (oracle : String → PyVal) (nos : List Int)
    (input : List Row) :
    ∀ st : RunState, ∀ w ∈ (input.foldl (processRecord oracle nos) st).writes,
      w ∈ st.writes ∨ w.cols = required_columns := by
  induction input with
  | nil => intro st w hw; exact Or.inl hw
  | cons r rs ih =>
    intro st w hw
    simp only [List.foldl_cons] at hw
    by_cases h : shouldSkip nos r
    · simp only [processRecord, h, if_true] at hw
      exact ih st w hw
    · simp only [processRecord, h, if_false, Bool.false_eq_true] at hw
      rcases ih _ w hw with hmem | hcols
      · rcases List.mem_append.mp hmem with hmem' | hmem'
        · exact Or.inl hmem'
        · rcases List.mem_singleton.mp hmem' with rfl
          exact Or.inr rfl
      · exact Or.inr hcols

theorem runMain_rows (oracle : String → PyVal) (input : List Row)
    (existing : Frame) :
    (runMain oracle input existing).frame.rows
      = existing.rows ++ newRows oracle (processed_nos existing.rows) input :=
  foldl_processRecord_rows oracle (processed_nos existing.rows) input _

theorem runMain_calls (oracle : String → PyVal) (input : List Row)
    (existing : Frame) :
    (runMain oracle input existing).calls
      = newCalls oracle (processed_nos existing.rows) input :=
  foldl_processRecord_calls oracle (processed_nos existing.rows) input _

theorem runMain_writes (oracle : String → PyVal) (input : List Row)
    (existing : Frame) :
    ∀ w ∈ (runMain oracle input existing).writes, w.cols = required_columns := by
  intro w hw
  rcases foldl_processRecord_writes oracle (processed_nos existing.rows) input _ w hw with
    hmem | hcols
  · simp at hmem
  · exact hcols

/-- A sample classifier oracle used in concrete instances. -/
def sampleOracle : String → PyVal := fun _ => .str "Positive"

/-- A sample source row with opaque payload fields. -/
def sampleRow (n : Option Int) (b : Option String) : Row :=
  ⟨n, .none, b, .none, .none⟩

/-- The Source Table of the resume-correctness example: ids 1,2,3,4. -/
def resumeInput : List Row :=
  [sampleRow (some 1) (some "b1"), sampleRow (some 2) (some "b2"),
   sampleRow (some 3) (some "b3"), sampleRow (some 4) (some "b4")]

/-- The Result Table of the resume-correctness example: ids 1,3 already
stored. -/
def resumeExisting : Frame :=
  ⟨required_columns,
   [mkResultRow (sampleRow (some 1) (some "b1")) (.str "Positive"),
    mkResultRow (sampleRow (some 3) (some "b3")) (.str "Neutral")]⟩

/-- C1 — Resume correctness of the Batch Runner: a run leaves every
stored row untouched (the final Result Table is the loaded one extended
by the newly appended rows), its classifier invocations (and null-body
short-circuits) are exactly those of the kept records, and a record with
a non-null id is kept (not skipped) precisely when that id is not among
the non-null ids already stored in the Result Table. -/
theorem runMain_resume_correctness (oracle : String → PyVal)
    (input : List Row) (existing : Frame) (r : Row) (n : Int)
    (_hr : r ∈ input) (hn : r.no = some n) :
    (runMain oracle input existing).frame.rows
        = existing.rows ++ newRows oracle (processed_nos existing.rows) input
      ∧ (runMain oracle input existing).calls
        = newCalls oracle (processed_nos existing.rows) input
      ∧ (shouldSkip (processed_nos existing.rows) r = false
          ↔ n ∉ processed_nos existing.rows) := by
  refine ⟨runMain_rows oracle input existing, runMain_calls oracle input existing, ?_⟩
  simp [shouldSkip, hn, List.contains, List.elem_iff]

/-- Witness for C1 at the specification's example: Result Table ids
{1,3}, Source Table ids {1,2,3,4}; exactly ids 2 and 4 are classified
(their bodies "b2", "b4" are the only classifier calls). -/
theorem runMain_resume_correctness_witness :
    ((runMain sampleOracle resumeInput resumeExisting).frame.rows
        = resumeExisting.rows
          ++ newRows sampleOracle (processed_nos resumeExisting.rows) resumeInput
      ∧ (runMain sampleOracle resumeInput resumeExisting).calls
        = newCalls sampleOracle (processed_nos resumeExisting.rows) resumeInput
      ∧ (shouldSkip (processed_nos resumeExisting.rows)
            (sampleRow (some 2) (some "b2")) = false
          ↔ (2 : Int) ∉ processed_nos resumeExisting.rows))
    ∧ (newRows sampleOracle (processed_nos resumeExisting.rows)
        resumeInput).filterMap ResultRow.no = [2, 4]
    ∧ newCalls sampleOracle (processed_nos resumeExisting.rows) resumeInput
        = ["b2", "b4"] :=
  ⟨runMain_resume_correctness sampleOracle resumeInput resumeExisting
      (sampleRow (some 2) (some "b2")) 2
      (List.Mem.tail _ (List.Mem.head _)) rfl,
   rfl, rfl⟩

theorem processed_nos_append (a b : List ResultRow) :
    processed_nos (a ++ b) = processed_nos a ++ processed_nos b :=
  List.filterMap_append a b _

theorem newRows_nos (oracle : String → PyVal) (nos : List Int)
    (input : List Row) :
    processed_nos (newRows oracle nos input)
      = (keptRecords nos input).filterMap Row.no := by
  simp only [processed_nos, newRows, List.filterMap_map]
  rfl

theorem mem_processed_nos_newRows (oracle : String → PyVal) (nos : List Int)
    (input : List Row) (r : Row) (n : Int)
    (hr : r ∈ input) (hn : r.no = some n) (hk : shouldSkip nos r = false) :
    n ∈ processed_nos (newRows oracle nos input) := by
  have hkept : r ∈ keptRecords nos input := by
    simp [keptRecords, List.mem_filter, hr, hk]
  refine List.mem_filterMap.mpr
    ⟨mkResultRow r (classifyBody oracle r.body).1, ?_, ?_⟩
  · exact List.mem_map.mpr ⟨r, hkept, rfl⟩
  · simpa [mkResultRow] using hn

/-- C2 (amended) — Idempotence of the Batch Runner on records with
non-null ids: if every source record has a non-null id, then a second
run on the same Source Table, starting from the Result Table produced by
a completed first run, performs zero classifier calls. -/
theorem second_run_zero_calls (oracle₁ oracle₂ : String → PyVal)
    (input : List Row) (existing : Frame)
    (h : ∀ r ∈ input, r.no ≠ none) :
    (runMain oracle₂ input ((runMain oracle₁ input existing).frame)).calls
      = [] := by
  rw [runMain_calls]
  have hkept : keptRecords
      (processed_nos ((runMain oracle₁ input existing).frame.rows)) input
      = [] := by
    refine List.filter_eq_nil_iff.mpr ?_
    intro r hr
    simp only [Bool.not_eq_true', Bool.not_eq_false]
    rcases hno : r.no with _ | n
    · exact absurd hno (h r hr)
    rw [runMain_rows, processed_nos_append]
    have hmem : n ∈ processed_nos existing.rows
        ++ processed_nos (newRows oracle₁ (processed_nos existing.rows) input) := by
      by_cases hmem1 : n ∈ processed_nos existing.rows
      · exact List.mem_append_left _ hmem1
      · refine List.mem_append_right _ ?_
        refine mem_processed_nos_newRows oracle₁ _ input r n hr hno ?_
        simp [shouldSkip, hno, List.contains, List.elem_iff, hmem1]
    simp [shouldSkip, hno, List.contains, List.elem_iff, hmem]
  rw [newCalls, hkept]
  simp

/-- Witness for C2 (amended): the four-record Source Table with ids
1,2,3,4: after a first full run from an empty Result Table, a second run
performs zero classifier calls. -/
theorem second_run_zero_calls_witness :
    (runMain sampleOracle resumeInput
      ((runMain sampleOracle resumeInput emptyResultFrame).frame)).calls
      = [] :=
  second_run_zero_calls sampleOracle sampleOracle resumeInput emptyResultFrame
    (by
      intro r hr
      fin_cases hr <;> simp [sampleRow])

/-- A source record with a null id and a non-empty body. -/
def nullIdRow : Row := ⟨none, .none, some "x", .none, .none⟩

/-- C2 counterexample — a record whose id is null is never counted as
processed, so it is re-classified on every run: with the single-record
Source Table `[nullIdRow]`, the first run (from the empty Result Table)
performs one classifier call, and a second run on the resulting output
performs one additional classifier call, not zero. -/
theorem second_run_calls_again_counterexample :
    (runMain sampleOracle [nullIdRow] emptyResultFrame).calls = ["x"]
    ∧ (runMain sampleOracle [nullIdRow]
        ((runMain sampleOracle [nullIdRow] emptyResultFrame).frame)).calls
      = ["x"]
    ∧ (["x"] : List String) ≠ [] :=
  ⟨rfl, rfl, by simp⟩

/-- C4 (amended) — Result Table id uniqueness: when the non-null ids of
the Source Table are pairwise distinct and the non-null ids of the
starting Result Table are pairwise distinct, the non-null ids of the
Result Table after a run are still pairwise distinct. -/
theorem runMain_nodup_ids (oracle : String → PyVal) (input : List Row)
    (existing : Frame)
    (hsrc : (input.filterMap Row.no).Nodup)
    (hex : (processed_nos existing.rows).Nodup) :
    (processed_nos (runMain oracle input existing).frame.rows).Nodup := by
  rw [runMain_rows, processed_nos_append]
  refine List.nodup_append.mpr ⟨hex, ?_, ?_⟩
  · rw [newRows_nos]
    exact hsrc.sublist ((List.filter_sublist input).filterMap Row.no)
  · intro n hnP hnB
    rw [newRows_nos] at hnB
    rcases List.mem_filterMap.mp hnB with ⟨r, hrk, hno⟩
    have hk : shouldSkip (processed_nos existing.rows) r = false := by
      simpa using (List.mem_filter.mp hrk).2
    simp [shouldSkip, hno, List.contains, List.elem_iff, hnP] at hk

/-- Witness for C4 (amended) at the resume example tables. -/
theorem runMain_nodup_ids_witness :
    (processed_nos
      (runMain sampleOracle resumeInput resumeExisting).frame.rows).Nodup :=
  runMain_nodup_ids sampleOracle resumeInput resumeExisting
    (by decide) (by decide)

/-- C4 counterexample — the processed-id set is computed once, before
the loop, so a Source Table holding the same id 5 twice (with an empty,
trivially unique, starting Result Table) appends two rows with id 5: the
stored ids after the run are [5, 5], not unique. -/
theorem runMain_duplicate_ids_counterexample :
    (processed_nos emptyResultFrame.rows).Nodup
    ∧ processed_nos (runMain sampleOracle
        [sampleRow (some 5) none, sampleRow (some 5) none]
        emptyResultFrame).frame.rows = [5, 5]
    ∧ ¬ (processed_nos (runMain sampleOracle
        [sampleRow (some 5) none, sampleRow (some 5) none]
        emptyResultFrame).frame.rows).Nodup := by
  refine ⟨by decide, rfl, ?_⟩
  intro h
  rw [show processed_nos (runMain sampleOracle
        [sampleRow (some 5) none, sampleRow (some 5) none]
        emptyResultFrame).frame.rows = [5, 5] from rfl] at h
  simp at h

/-- C5 — Null-body short-circuit: a record whose `body` is null or the
empty string and whose id is not already processed is appended with
`emotion_result = None`, and the loop iteration performs no classifier
call (the call list is unchanged). -/
theorem null_body_short_circuit (oracle : String → PyVal) (nos : List Int)
    (st : RunState) (r : Row)
    (hbody : r.body = none ∨ r.body = some "")
    (hskip : shouldSkip nos r = false) :
    processRecord oracle nos st r
      = ⟨⟨required_columns, st.frame.rows ++ [mkResultRow r .none]⟩,
         st.calls,
         st.writes
           ++ [⟨required_columns, st.frame.rows ++ [mkResultRow r .none]⟩]⟩ := by
  rcases hbody with h | h <;> simp [processRecord, hskip, classifyBody, h]

/-- Witness for C5: a fresh record with a null body is appended with a
null `emotion_result` and no classifier call. -/
theorem null_body_short_circuit_witness :
    processRecord sampleOracle [] ⟨emptyResultFrame, [], []⟩
        (sampleRow (some 7) none)
      = ⟨⟨required_columns, [mkResultRow (sampleRow (some 7) none) .none]⟩,
         [],
         [⟨required_columns, [mkResultRow (sampleRow (some 7) none) .none]⟩]⟩ :=
  null_body_short_circuit sampleOracle [] ⟨emptyResultFrame, [], []⟩
    (sampleRow (some 7) none) (Or.inl rfl) rfl

/-- C6 — `classify` never raises: the outer `except` catches any
exception of the network call (modelled by an `.error` outcome) as well
as the `AttributeError` raised by stripping a `None` response text; in
both cases the error is logged via `tqdm.write` and the function returns
`None` instead of propagating.  (Totality of `analyze_emotion` itself
models the absence of any other escape path.) -/
theorem classify_never_raises (jsonLoads : String → Except Unit PyVal)
    (e : String) :
    analyze_emotion jsonLoads (.error e) = (.none, [geminiErrorLog e])
    ∧ analyze_emotion jsonLoads (.ok ⟨none, none⟩)
      = (.none, [geminiErrorLog attributeErrorMsg]) :=
  ⟨rfl, rfl⟩

/-- C7 — Fatal-to-run error handling: when reading the input file
raises, `main` prints the read-error diagnostic and returns early
(`run = none`: the batch loop is never entered, so no record is
classified and the Result Table file is never written); when the loaded
input lacks the `body` column, `main` prints the missing-column
diagnostic and likewise returns early.  In both cases `main` returns
normally (it is a total function: no exception propagates). -/
theorem fatal_run_errors (oracle : String → PyVal) (e : String)
    (cols : List String) (rows : List Row)
    (el el' : Option (Except String Frame))
    (hb : "body" ∉ cols) :
    pymain oracle (.error e) el = ⟨none, [readErrConsole e]⟩
    ∧ pymain oracle (.ok (cols, rows)) el' = ⟨none, [missingBodyConsole]⟩ := by
  refine ⟨rfl, ?_⟩
  simp [pymain, hb]

/-- Witness for C7: an unreadable input file and an input table with
only the columns `no` and `title`. -/
theorem fatal_run_errors_witness :
    pymain sampleOracle (.error "file not found") none
      = ⟨none, [readErrConsole "file not found"]⟩
    ∧ pymain sampleOracle (.ok (["no", "title"], [])) none
      = ⟨none, [missingBodyConsole]⟩ :=
  fatal_run_errors sampleOracle "file not found" ["no", "title"] [] none none
    (by decide)

/-- C8 — Column schema invariant: every snapshot of the Result Table
persisted by a run (in particular the last one, the state of the output
file after a successful run that processed at least one record) has
exactly the columns `[no, title, body, vote, comment, emotion_result]`
(the spec's `[id, title, body, vote, comment, emotion_result]`, `id`
being the spec's name for the `no` column), in that order. -/
theorem column_schema_invariant (oracle : String → PyVal)
    (input : List Row) (existing : Frame) (w : Frame)
    (hw : w ∈ (runMain oracle input existing).writes) :
    w.cols = required_columns := by
  rcases foldl_processRecord_writes oracle (processed_nos existing.rows)
      input _ w hw with hmem | hcols
  · simp at hmem
  · exact hcols

/-- Witness for C8: a one-record run persists exactly one snapshot, and
its columns are the canonical ones. -/
theorem column_schema_invariant_witness :
    (runMain sampleOracle [sampleRow (some 1) none] emptyResultFrame).writes
      = [⟨required_columns, [mkResultRow (sampleRow (some 1) none) .none]⟩]
    ∧ (⟨required_columns,
        [mkResultRow (sampleRow (some 1) none) .none]⟩ : Frame).cols
      = required_columns :=
  ⟨rfl,
   column_schema_invariant sampleOracle [sampleRow (some 1) none]
     emptyResultFrame _ (List.Mem.head _)⟩

/-- C10 — Null-id records are always re-processed: the processed-id set
contains only ids coming from rows with a non-null id, a record whose id
is null is never skipped, and its freshly classified row is appended to
the Result Table again on every run, even if an identical row is already
stored. -/
theorem null_id_reprocessed (oracle : String → PyVal) (input : List Row)
    (existing : Frame) (r : Row)
    (hr : r ∈ input) (hnull : r.no = none) :
    (∀ m ∈ processed_nos existing.rows, ∃ rr ∈ existing.rows, rr.no = some m)
    ∧ shouldSkip (processed_nos existing.rows) r = false
    ∧ (runMain oracle input existing).frame.rows
        = existing.rows ++ newRows oracle (processed_nos existing.rows) input
    ∧ mkResultRow r (classifyBody oracle r.body).1
        ∈ newRows oracle (processed_nos existing.rows) input := by
  refine ⟨?_, ?_, runMain_rows oracle input existing, ?_⟩
  · intro m hm
    exact List.mem_filterMap.mp hm
  · simp [shouldSkip, hnull]
  · refine List.mem_map.mpr ⟨r, ?_, rfl⟩
    simp [keptRecords, List.mem_filter, hr, shouldSkip, hnull]

/-- The Result Table after one run on the single null-id record. -/
def nullIdFrame : Frame :=
  ⟨required_columns, [mkResultRow nullIdRow (.str "Positive")]⟩

/-- Witness for C10: running on the single null-id record with a Result
Table that already stores the identical classified row appends the row a
second time. -/
theorem null_id_reprocessed_witness :
    ((∀ m ∈ processed_nos nullIdFrame.rows,
        ∃ rr ∈ nullIdFrame.rows, rr.no = some m)
      ∧ shouldSkip (processed_nos nullIdFrame.rows) nullIdRow = false
      ∧ (runMain sampleOracle [nullIdRow] nullIdFrame).frame.rows
        = nullIdFrame.rows
          ++ newRows sampleOracle (processed_nos nullIdFrame.rows) [nullIdRow]
      ∧ mkResultRow nullIdRow (classifyBody sampleOracle nullIdRow.body).1
        ∈ newRows sampleOracle (processed_nos nullIdFrame.rows) [nullIdRow])
    ∧ (runMain sampleOracle [nullIdRow] nullIdFrame).frame.rows
      = [mkResultRow nullIdRow (.str "Positive"),
         mkResultRow nullIdRow (.str "Positive")] :=
  ⟨null_id_reprocessed sampleOracle [nullIdRow] nullIdFrame nullIdRow
      (List.Mem.head _) rfl,
   rfl⟩

/-- A model of `json.loads` on inputs that are not valid JSON: it raises
(here: on every input).  Used where the text under consideration — e.g.
`"Negative Positive"` or `"it is Negative"` — is not valid JSON, so
`json.loads` raises `ValueError` on it. -/
def jsonLoadsFailAll : String → Except Unit PyVal := fun _ => .error ()

/-- C3 counterexample — the substring tier tests the literals in the
fixed priority order Positive, Negative, Neutral, ignoring positions:
for the raw response text `"Negative Positive"` (no structured object,
not valid JSON), the substring `"Negative"` occurs at index 0, before
the only occurrence of `"Positive"` at index 9 (and `"Neutral"` does not
occur), yet `classify` returns `"Positive"`, not `"Negative"`. -/
theorem substring_priority_counterexample :
    strFind "Negative" "Negative Positive" = some 0
    ∧ strFind "Positive" "Negative Positive" = some 9
    ∧ strFind "Neutral" "Negative Positive" = none
    ∧ (analyze_emotion jsonLoadsFailAll
        (.ok ⟨none, some "Negative Positive"⟩)).1 = .str "Positive"
    ∧ PyVal.str "Positive" ≠ PyVal.str "Negative" :=
  ⟨by decide, by decide, by decide, rfl,
   by intro h; injection h with h'; exact absurd h' (by decide)⟩

/-- C3 (amended) — Parsing fallback order: for every raw response text
with no pre-validated structured object, on which `json.loads` raises,
whose stripped text contains the substring `"Negative"` and does not
contain the substring `"Positive"`, `classify` returns `"Negative"`
(the literals are tested in the priority order Positive, Negative,
Neutral; presence, not position, decides). -/
theorem substring_fallback_negative (jsonLoads : String → Except Unit PyVal)
    (t : String)
    (hjson : jsonLoads (pyStrip t) = .error ())
    (hneg : pyContains "Negative" (pyStrip t) = true)
    (hpos : pyContains "Positive" (pyStrip t) = false) :
    (analyze_emotion jsonLoads (.ok ⟨none, some t⟩)).1 = .str "Negative" := by
  simp [analyze_emotion, hjson, substringFallback, hneg, hpos]

/-- Witness for C3 (amended) at the text `"it is Negative"`. -/
theorem substring_fallback_negative_witness :
    (analyze_emotion jsonLoadsFailAll
      (.ok ⟨none, some "it is Negative"⟩)).1 = .str "Negative" :=
  substring_fallback_negative jsonLoadsFailAll "it is Negative"
    rfl (by decide) (by decide)

/-- A model of `json.loads` at the single input `"Negative"` (with the
quotation marks): a JSON string literal, which `json.loads` parses
successfully to the Python string `'Negative'`; every other input is
treated as raising. -/
def jsonLoadsNegStr : String → Except Unit PyVal :=
  fun s => if s = "\"Negative\"" then .ok (.str "Negative") else .error ()

/-- C9 counterexample — on the raw response text `"Negative"` (a JSON
string literal), `json.loads` succeeds and returns a value with no
`"result"` key (it is not even a dict), yet `classify` does not return
`None`: `.get` raises `AttributeError` on the non-dict value, the inner
`except` catches it, and the substring tier returns `"Negative"`.  So
the substring tier is reached although JSON parsing itself succeeded. -/
theorem json_success_non_dict_counterexample :
    jsonLoadsNegStr (pyStrip "\"Negative\"") = .ok (.str "Negative")
    ∧ (analyze_emotion jsonLoadsNegStr
        (.ok ⟨none, some "\"Negative\""⟩)).1 = .str "Negative"
    ∧ PyVal.str "Negative" ≠ PyVal.none :=
  ⟨rfl, rfl, fun h => PyVal.noConfusion h⟩

/-- C9 (amended) — when the pre-validated structured object is absent
and the raw text parses as a JSON object (a dict), `classify` returns
the dict's `"result"` value, defaulting to `None` when the key is
absent; in particular it returns `None` for a dict with no `"result"`
key, and the substring/raw-text tiers are not reached.  (They are
reached exactly when `json.loads` raises or returns a non-dict value.) -/
theorem json_dict_tier (jsonLoads : String → Except Unit PyVal)
    (t : String) (kvs : List (String × PyVal))
    (hjson : jsonLoads (pyStrip t) = .ok (.dict kvs)) :
    analyze_emotion jsonLoads (.ok ⟨none, some t⟩) = (pyDictGet kvs "result", [])
    ∧ (List.lookup "result" kvs = none →
        analyze_emotion jsonLoads (.ok ⟨none, some t⟩) = (.none, [])) := by
  constructor
  · simp [analyze_emotion, hjson]
  · intro hmiss
    simp [analyze_emotion, hjson, pyDictGet, hmiss]

/-- A model of `json.loads` at the single input `{"other": 1}`: a JSON
object with no `"result"` key. -/
def jsonLoadsOtherDict : String → Except Unit PyVal :=
  fun s => if s = "\x7b\"other\": 1\x7d" then .ok (.dict [("other", .int 1)])
    else .error ()

/-- Witness for C9 (amended) at the text `{"other": 1}`. -/
theorem json_dict_tier_witness :
    (analyze_emotion jsonLoadsOtherDict
        (.ok ⟨none, some "\x7b\"other\": 1\x7d"⟩)
      = (pyDictGet [("other", PyVal.int 1)] "result", [])
    ∧ (List.lookup "result" [("other", PyVal.int 1)] = none →
        analyze_emotion jsonLoadsOtherDict
          (.ok ⟨none, some "\x7b\"other\": 1\x7d"⟩) = (.none, [])))
    ∧ analyze_emotion jsonLoadsOtherDict
        (.ok ⟨none, some "\x7b\"other\": 1\x7d"⟩) = (.none, []) :=
  ⟨json_dict_tier jsonLoadsOtherDict "\x7b\"other\": 1\x7d"
      [("other", PyVal.int 1)] rfl,
   rfl⟩
